import Mathlib

/-!
Shallow embedding of the presentation sequencing controller of
`crawd-overlay-example` (`src/controller/OverlayController.ts`).

The controller is single-threaded and event-driven.  Every method of the
TypeScript class is embedded as a pure state-transition function on an
explicit `Ctrl` record.  The asynchronous boundaries of the source (the
awaited TTS promises, the `ended`/`error`/play-rejection callbacks of the audio element
callbacks and the `setTimeout` continuations) are represented as data
stored in the state (`pendingTts`, `AudioHandlers`, `TimerCont`); the
environment delivers them through the `Ev`/`step` interface, exactly one
callback running to completion at a time, as in the JavaScript event loop.

Observable effects (events emitted on the transport client, blob URLs
created and revoked, audio elements created) are accumulated in log fields
of the state so that theorems can count them.
-/

namespace CrawdOverlay

/-- Connection / mood status broadcast by the backend (`OverlayStatus`). -/
inductive OverlayStatus
  | sleep
  | idle
  | vibing
  | chatting
  | active
deriving DecidableEq, Repr

/-- Which half of a reply turn is displayed (`TurnPhase`). -/
inductive TurnPhase
  | idle
  | chat
  | response
deriving DecidableEq, Repr

/-- The viewer chat message inside a reply-turn event. -/
structure ChatMsg where
  username : String
  message : String
deriving DecidableEq, Repr

/-- A reply-turn event (`ReplyTurnEvent`): a viewer message plus the bot reply. -/
structure Turn where
  id : String
  chat : ChatMsg
  botMessage : String
deriving DecidableEq, Repr

/-- The `currentMessage` record `{ text }` of the snapshot. -/
structure Msg where
  text : String
deriving DecidableEq, Repr

/-- The display-state record (`OverlaySnapshot`). -/
structure OverlaySnapshot where
  connected : Bool
  status : OverlayStatus
  turnPhase : TurnPhase
  currentTurn : Option Turn
  currentMessage : Option Msg
  queueLength : Nat
  showAll : Bool
deriving DecidableEq, Repr

/-- The snapshot built at construction (`initialSnapshot()` in the source). -/
def initialSnapshot : OverlaySnapshot :=
  { connected := false
    status := .sleep
    turnPhase := .idle
    currentTurn := none
    currentMessage := none
    queueLength := 0
    showAll := false }

/-- Result of `generateTts`: a base64 audio payload plus the provider name.
`null` is represented as `Option.none` at the use sites. -/
structure TtsResult where
  base64 : String
  provider : String
deriving DecidableEq, Repr

/-- A queued speech event (`QueueItem`), a tagged union of the two kinds. -/
inductive QueueItem
  | talk (id : String) (text : String)
  | replyTurn (id : String) (turn : Turn)
deriving DecidableEq, Repr

-- Numeric policy constants, copied from the source.
def DEFAULT_VOLUME : ℚ := 8 / 10
def TIKTOK_VOLUME : ℚ := 7 / 10
def BUBBLE_GAP_MS : Nat := 1500
def POST_AUDIO_DELAY_MS : Nat := 1500
def ERROR_DELAY_MS : Nat := 3000
def NO_TTS_DELAY_MS : Nat := 3000
def MAX_AUDIO_TIMEOUT_MS : Nat := 30000
def PHASE_TRANSITION_DELAY_MS : Nat := 500
def CHAT_PHASE_TIMEOUT_MS : Nat := 15000

/-- The record literal `PROVIDER_VOLUME = { tiktok: 0.7 }`, as a finite map. -/
def PROVIDER_VOLUME (p : String) : Option ℚ :=
  if p = "tiktok" then some TIKTOK_VOLUME else none

/-- The function `volumeForProvider`.  A falsy provider (absent or the
empty string) yields the default; otherwise the record lookup with the `??`
fallback. -/
def volumeForProvider : Option String → ℚ
  | none => DEFAULT_VOLUME
  | some p => if p = "" then DEFAULT_VOLUME else (PROVIDER_VOLUME p).getD DEFAULT_VOLUME

/-- The dependency `createBlobUrl` returns a fresh object URL for a decoded payload; we model
it as a deterministic injective function of the base64 payload. -/
def mkBlobUrl (base64 : String) : String := "blob:" ++ base64

/-- The continuation stored in a pending `setTimeout`.  The source keeps at
most one live controller timer at a time (`this._timer`); every continuation
that appears in the source is one of these closures. -/
inductive TimerCont
  | finishC (id : String)
  | revokeFinishC (url : String) (id : String)
  | processNextC
  | startResponseC (botTts : Option TtsResult) (id : String)
deriving DecidableEq, Repr

/-- What the `onended`/`onerror`/play-rejection handlers of the active audio element
handlers do.  `playback` is the pair `done`/`fail` installed by `_playAudio`
(with `onFinish` revoking `url` and finishing item `id`); `chatPhase` is the
`onChatEnd` closure installed on the chat audio of a reply turn. -/
inductive AudioHandlers
  | playback (url : String) (id : String)
  | chatPhase (chatUrl : String) (botTts : Option TtsResult) (id : String)
deriving DecidableEq, Repr

/-- The active audio element: its source URL, assigned volume and handlers. -/
structure AudioRec where
  url : String
  volume : ℚ
  handlers : AudioHandlers
deriving DecidableEq, Repr

/-- An in-flight `generateTts` request awaited by a processing item. -/
inductive PendingTts
  | talkP (id : String) (text : String)
  | turnP (id : String) (turn : Turn)
deriving DecidableEq, Repr

/-- The full controller state.  `snapVer` models the object identity of the
snapshot record: the source replaces the snapshot wholesale (`{ ...spread }`)
exactly when a field-level change is detected, so two snapshots are the same
JavaScript object reference iff no bump happened in between. -/
structure Ctrl where
  snapshot : OverlaySnapshot
  snapVer : Nat
  amplitude : ℚ
  client : Bool
  queue : List QueueItem
  processing : Bool
  audio : Option AudioRec
  timer : Option (TimerCont × Nat)
  destroyed : Bool
  pendingTts : Option PendingTts
  audioCtx : Bool
  analyser : Bool
  source : Bool
  connectedAudioEl : Option String
  rafActive : Bool
  emitted : List (String × String)
  createdBlobs : List String
  revokedBlobs : List String
  createdAudios : List AudioRec
deriving DecidableEq, Repr

/-- The state of a freshly constructed controller. -/
def initCtrl : Ctrl :=
  { snapshot := initialSnapshot
    snapVer := 0
    amplitude := 0
    client := false
    queue := []
    processing := false
    audio := none
    timer := none
    destroyed := false
    pendingTts := none
    audioCtx := false
    analyser := false
    source := false
    connectedAudioEl := none
    rafActive := false
    emitted := []
    createdBlobs := []
    revokedBlobs := []
    createdAudios := [] }

/-- The client emit call: appended to the emit log only when a
client instance exists. -/
def emitClient (ev : String) (id : String) (s : Ctrl) : Ctrl :=
  if s.client then { s with emitted := s.emitted ++ [(ev, id)] } else s

/-- The status case of `_set`: no-op when unchanged, else wholesale replacement. -/
def setStatusField (v : OverlayStatus) (s : Ctrl) : Ctrl :=
  if s.snapshot.status = v then s
  else { s with snapshot := { s.snapshot with status := v }, snapVer := s.snapVer + 1 }

/-- The connected case of `_set`. -/
def setConnectedField (v : Bool) (s : Ctrl) : Ctrl :=
  if s.snapshot.connected = v then s
  else { s with snapshot := { s.snapshot with connected := v }, snapVer := s.snapVer + 1 }

/-- The showAll case of `_set`. -/
def setShowAllField (v : Bool) (s : Ctrl) : Ctrl :=
  if s.snapshot.showAll = v then s
  else { s with snapshot := { s.snapshot with showAll := v }, snapVer := s.snapVer + 1 }

/-- The turnPhase case of `_set`. -/
def setTurnPhaseField (v : TurnPhase) (s : Ctrl) : Ctrl :=
  if s.snapshot.turnPhase = v then s
  else { s with snapshot := { s.snapshot with turnPhase := v }, snapVer := s.snapVer + 1 }

/-- The queueLength case of `_set`. -/
def setQueueLengthField (n : Nat) (s : Ctrl) : Ctrl :=
  if s.snapshot.queueLength = n then s
  else { s with snapshot := { s.snapshot with queueLength := n }, snapVer := s.snapVer + 1 }

/-- The currentMessage case of `_set`, with a fresh record: the argument is a freshly allocated
object, so the `===` change check always fails and a new snapshot is built. -/
def setCurrentMessageFresh (m : Msg) (s : Ctrl) : Ctrl :=
  { s with snapshot := { s.snapshot with currentMessage := some m }
           snapVer := s.snapVer + 1 }

/-- The `_setBatch` call setting currentTurn and the chat phase at the start of a
reply turn.  The change check compares the stored turn by JavaScript
reference; structural equality stands in for it (the two coincide on all
reachable states, where `currentTurn` is `null` at this point). -/
def setBatchTurnStart (t : Turn) (s : Ctrl) : Ctrl :=
  if s.snapshot.currentTurn = some t ∧ s.snapshot.turnPhase = .chat then s
  else { s with snapshot := { s.snapshot with currentTurn := some t, turnPhase := .chat }
                snapVer := s.snapVer + 1 }

/-- The `_setBatch` call of `_finishItem` resetting turnPhase, currentTurn and
currentMessage.  The fresh values are primitives or null, so `===` agrees
with structural equality here. -/
def setBatchFinish (s : Ctrl) : Ctrl :=
  if s.snapshot.turnPhase = .idle ∧ s.snapshot.currentTurn = none ∧
      s.snapshot.currentMessage = none then s
  else { s with snapshot := { s.snapshot with turnPhase := .idle, currentTurn := none,
                                              currentMessage := none }
                snapVer := s.snapVer + 1 }

/-- The `_setBatch` call in `destroy()`.  Note that it does not touch
`status` or `showAll`. -/
def setBatchDestroy (s : Ctrl) : Ctrl :=
  if s.snapshot.connected = false ∧ s.snapshot.turnPhase = .idle ∧
      s.snapshot.currentTurn = none ∧ s.snapshot.currentMessage = none ∧
      s.snapshot.queueLength = 0 then s
  else { s with snapshot := { s.snapshot with connected := false, turnPhase := .idle,
                                              currentTurn := none, currentMessage := none,
                                              queueLength := 0 }
                snapVer := s.snapVer + 1 }

/-- Method `_stopAudio()`: detach the `onended`/`onerror` handlers, pause, and drop
the element.  The asynchronous `pause` listener effect on the amplitude is
subsumed by `_disconnectAnalysis`, which follows on every claim-relevant
path. -/
def stopAudio (s : Ctrl) : Ctrl :=
  { s with audio := none }

/-- Method `_clearTimer()`. -/
def clearTimer (s : Ctrl) : Ctrl :=
  { s with timer := none }

/-- Method `_disconnectAnalysis()`: remove listeners, stop the amplitude loop,
disconnect the source and reset the amplitude. -/
def disconnectAnalysis (s : Ctrl) : Ctrl :=
  { s with source := false, connectedAudioEl := none, amplitude := 0, rafActive := false }

/-- Method `_connectAnalysis(audio)`: a no-op when already wired to this element;
otherwise lazily builds the context/analyser, rewires the source to the new
element and starts the amplitude loop. -/
def connectAnalysis (url : String) (s : Ctrl) : Ctrl :=
  if s.connectedAudioEl = some url then s
  else { s with audioCtx := true, analyser := true, source := true,
                connectedAudioEl := some url, rafActive := true }

/-- Method `_playAudio(url, provider, onFinish)` where `onFinish` revokes `url` and
finishes item `finId`: stop prior audio, create the element at the provider
volume, wire analysis, install the `done`/`fail` handlers, start playback and
arm the safety timeout. -/
def playAudio (url : String) (provider : Option String) (finId : String) (s : Ctrl) : Ctrl :=
  let s1 := stopAudio s
  let a : AudioRec := { url := url, volume := volumeForProvider provider,
                        handlers := .playback url finId }
  let s2 := { s1 with audio := some a, createdAudios := s1.createdAudios ++ [a] }
  let s3 := connectAnalysis url s2
  { s3 with timer := some (.revokeFinishC url finId, MAX_AUDIO_TIMEOUT_MS) }

/-- Method `_sendAck(id)`. -/
def sendAck (id : String) (s : Ctrl) : Ctrl :=
  emitClient "talk:done" id s

/-- Method `_finishItem(id)`: clear the timer, stop audio, detach analysis, reset the
display fields, acknowledge, and schedule the next dequeue after the gap. -/
def finishItem (id : String) (s : Ctrl) : Ctrl :=
  let s1 := clearTimer s
  let s2 := stopAudio s1
  let s3 := disconnectAnalysis s2
  let s4 := setBatchFinish s3
  let s5 := sendAck id s4
  { s5 with timer := some (.processNextC, BUBBLE_GAP_MS) }

/-- The synchronous head of `_processTalk`, up to the awaited TTS request. -/
def processTalkSync (id : String) (text : String) (s : Ctrl) : Ctrl :=
  let s1 := setCurrentMessageFresh { text := text } s
  { s1 with pendingTts := some (.talkP id text) }

/-- The synchronous head of `_processReplyTurn`, up to the awaited
`Promise.all` of the two TTS requests. -/
def processTurnSync (id : String) (t : Turn) (s : Ctrl) : Ctrl :=
  let s1 := setBatchTurnStart t s
  { s1 with pendingTts := some (.turnP id t) }

/-- Method `_processNext()`. -/
def processNext (s : Ctrl) : Ctrl :=
  if s.destroyed ∨ s.queue = [] then { s with processing := false }
  else
    match s.queue with
    | [] => { s with processing := false }
    | item :: rest =>
      let s1 := { s with processing := true, queue := rest }
      let s2 := setQueueLengthField rest.length s1
      match item with
      | .talk id text => processTalkSync id text s2
      | .replyTurn id t => processTurnSync id t s2

/-- Method `enqueue(item)`. -/
def enqueue (item : QueueItem) (s : Ctrl) : Ctrl :=
  if s.destroyed then s
  else
    let s1 := { s with queue := s.queue ++ [item] }
    let s2 := setQueueLengthField s1.queue.length s1
    if s2.processing then s2 else processNext s2

/-- The `startResponsePhase` closure of `_processReplyTurn`: clear the chat
safety/phase timer, switch the phase, then either play the bot audio or arm
the no-TTS fallback. -/
def startResponsePhase (botTts : Option TtsResult) (id : String) (s : Ctrl) : Ctrl :=
  let s1 := clearTimer s
  let s2 := setTurnPhaseField .response s1
  match botTts with
  | some tts =>
    let url := mkBlobUrl tts.base64
    let s3 := { s2 with createdBlobs := s2.createdBlobs ++ [url] }
    playAudio url (some tts.provider) id s3
  | none => { s2 with timer := some (.finishC id, NO_TTS_DELAY_MS) }

/-- The continuation of `_processTalk` after `await generateTts` (a thrown
generation error has already been mapped to `none` by the `catch`). -/
def processTalkResume (id : String) (res : Option TtsResult) (s : Ctrl) : Ctrl :=
  let s0 := { s with pendingTts := none }
  if s0.destroyed then s0
  else
    match res with
    | some tts =>
      let url := mkBlobUrl tts.base64
      let s1 := { s0 with createdBlobs := s0.createdBlobs ++ [url] }
      playAudio url (some tts.provider) id s1
    | none => { s0 with timer := some (.finishC id, NO_TTS_DELAY_MS) }

/-- The `onChatEnd` closure: revoke the chat blob, clear the chat safety
timer and schedule the phase transition. -/
def onChatEnd (chatUrl : String) (botTts : Option TtsResult) (id : String) (s : Ctrl) : Ctrl :=
  let s1 := { s with revokedBlobs := s.revokedBlobs ++ [chatUrl] }
  let s2 := clearTimer s1
  { s2 with timer := some (.startResponseC botTts id, PHASE_TRANSITION_DELAY_MS) }

/-- The continuation of `_processReplyTurn` after the awaited `Promise.all`
(a rejection has been mapped to both results `none` by the `catch`).  The
chat audio, unlike `_playAudio`, is not wired to the analyser. -/
def processTurnResume (id : String) (chatTts botTts : Option TtsResult) (s : Ctrl) : Ctrl :=
  let s0 := { s with pendingTts := none }
  if s0.destroyed then s0
  else
    match chatTts with
    | some ctts =>
      let churl := mkBlobUrl ctts.base64
      let s1 := { s0 with createdBlobs := s0.createdBlobs ++ [churl] }
      let s2 := stopAudio s1
      let a : AudioRec := { url := churl, volume := volumeForProvider (some ctts.provider),
                            handlers := .chatPhase churl botTts id }
      let s3 := { s2 with audio := some a, createdAudios := s2.createdAudios ++ [a] }
      { s3 with timer := some (.startResponseC botTts id, CHAT_PHASE_TIMEOUT_MS) }
    | none => startResponsePhase botTts id s0

/-- Method `destroy()`. -/
def destroy (s : Ctrl) : Ctrl :=
  let s1 := { s with destroyed := true }
  let s2 := clearTimer s1
  let s3 := stopAudio s2
  let s4 := disconnectAnalysis s3
  let s5 := { s4 with audioCtx := false }
  let s6 := { s5 with client := false }
  let s7 := { s6 with queue := [], processing := false }
  setBatchDestroy s7

/-- Method `connect()`: idempotent, no-op after destroy, otherwise acquires the one
client instance and registers the socket handlers. -/
def connect (s : Ctrl) : Ctrl :=
  if s.client ∨ s.destroyed then s
  else { s with client := true }

/-- Method `setStatus(status)` — note: no destroyed guard in the source. -/
def setStatus (v : OverlayStatus) (s : Ctrl) : Ctrl :=
  setStatusField v s

/-- Method `setShowAll(showAll)` — note: no destroyed guard in the source. -/
def setShowAll (v : Bool) (s : Ctrl) : Ctrl :=
  setShowAllField v s

/-- Method `getSnapshot()`. -/
def getSnapshot (s : Ctrl) : OverlaySnapshot :=
  s.snapshot

/-- Run a timer continuation (the body of the corresponding closure). -/
def runCont : TimerCont → Ctrl → Ctrl
  | .finishC id, s => finishItem id s
  | .revokeFinishC url id, s =>
      finishItem id { s with revokedBlobs := s.revokedBlobs ++ [url] }
  | .processNextC, s => processNext s
  | .startResponseC b id, s => startResponsePhase b id s

/-- The pending timeout elapses: the timer is no longer pending and its
continuation runs. -/
def fireTimer (s : Ctrl) : Ctrl :=
  match s.timer with
  | none => s
  | some (c, _) => runCont c (clearTimer s)

/-- The active audio element fires `ended`.  The `ended` listener installed
by `_connectAnalysis` (when this element is wired) stops the amplitude loop;
then the `onended` handler of the element runs. -/
def audioEndedEv (s : Ctrl) : Ctrl :=
  match s.audio with
  | none => s
  | some a =>
    let s1 := if s.connectedAudioEl = some a.url
              then { s with amplitude := 0, rafActive := false } else s
    match a.handlers with
    | .playback url id =>
      let s2 := clearTimer s1
      { s2 with timer := some (.revokeFinishC url id, POST_AUDIO_DELAY_MS) }
    | .chatPhase churl b id => onChatEnd churl b id s1

/-- The active audio element fires `error` (the `fail` handler). -/
def audioErrorEv (s : Ctrl) : Ctrl :=
  match s.audio with
  | none => s
  | some a =>
    match a.handlers with
    | .playback url id =>
      let s1 := clearTimer s
      { s1 with timer := some (.revokeFinishC url id, ERROR_DELAY_MS) }
    | .chatPhase churl b id => onChatEnd churl b id s

/-- The `play()` promise of the active audio element rejects (`catch`). -/
def playRejectedEv (s : Ctrl) : Ctrl :=
  match s.audio with
  | none => s
  | some a =>
    match a.handlers with
    | .playback url id =>
      let s1 := clearTimer s
      { s1 with timer := some (.revokeFinishC url id, ERROR_DELAY_MS) }
    | .chatPhase churl b id => onChatEnd churl b id s

/-- Outcome of an awaited `generateTts` call: it resolves to a result or
`null`, or it rejects — the surrounding `catch` maps a rejection to `null`. -/
inductive TtsOutcome
  | resolved (r : Option TtsResult)
  | threw
deriving DecidableEq, Repr

/-- What the `catch` turns the outcome into. -/
def TtsOutcome.toResult : TtsOutcome → Option TtsResult
  | .resolved r => r
  | .threw => none

/-- Outcome of the awaited `Promise.all` of a reply turn: both resolved, or
the whole conjunction rejected — the `catch` leaves both results `null`. -/
inductive TurnTtsOutcome
  | resolved (chatR botR : Option TtsResult)
  | threw
deriving DecidableEq, Repr

def TurnTtsOutcome.chatResult : TurnTtsOutcome → Option TtsResult
  | .resolved c _ => c
  | .threw => none

def TurnTtsOutcome.botResult : TurnTtsOutcome → Option TtsResult
  | .resolved _ b => b
  | .threw => none

/-- External events delivered by the event loop. -/
inductive Ev
  | ttsTalkDone (o : TtsOutcome)
  | ttsTurnDone (o : TurnTtsOutcome)
  | audioEnded
  | audioError
  | playRejected
  | timerFire
deriving DecidableEq, Repr

/-- Deliver one event: run the matching callback to completion.  An event
with no matching pending callback is a no-op. -/
def step (s : Ctrl) : Ev → Ctrl
  | .ttsTalkDone o =>
    match s.pendingTts with
    | some (.talkP id _) => processTalkResume id o.toResult s
    | _ => s
  | .ttsTurnDone o =>
    match s.pendingTts with
    | some (.turnP id _) => processTurnResume id o.chatResult o.botResult s
    | _ => s
  | .audioEnded => audioEndedEv s
  | .audioError => audioErrorEv s
  | .playRejected => playRejectedEv s
  | .timerFire => fireTimer s

/-- Deliver a sequence of events. -/
def run (s : Ctrl) (evs : List Ev) : Ctrl :=
  evs.foldl step s

/-- Enqueue a whole list of items in order. -/
def enqueueAll (items : List QueueItem) (s : Ctrl) : Ctrl :=
  items.foldl (fun acc i => enqueue i acc) s

/-! ### Field lemmas about the snapshot mutators -/

theorem setQueueLengthField_queueLength (n : Nat) (s : Ctrl) :
    (setQueueLengthField n s).snapshot.queueLength = n := by
  unfold setQueueLengthField
  split
  · assumption
  · rfl

theorem setQueueLengthField_queue (n : Nat) (s : Ctrl) :
    (setQueueLengthField n s).queue = s.queue := by
  unfold setQueueLengthField; split <;> rfl

theorem setQueueLengthField_processing (n : Nat) (s : Ctrl) :
    (setQueueLengthField n s).processing = s.processing := by
  unfold setQueueLengthField; split <;> rfl

theorem setQueueLengthField_destroyed (n : Nat) (s : Ctrl) :
    (setQueueLengthField n s).destroyed = s.destroyed := by
  unfold setQueueLengthField; split <;> rfl

theorem setQueueLengthField_pendingTts (n : Nat) (s : Ctrl) :
    (setQueueLengthField n s).pendingTts = s.pendingTts := by
  unfold setQueueLengthField; split <;> rfl

theorem setQueueLengthField_currentMessage (n : Nat) (s : Ctrl) :
    (setQueueLengthField n s).snapshot.currentMessage = s.snapshot.currentMessage := by
  unfold setQueueLengthField; split <;> rfl

theorem setQueueLengthField_currentTurn (n : Nat) (s : Ctrl) :
    (setQueueLengthField n s).snapshot.currentTurn = s.snapshot.currentTurn := by
  unfold setQueueLengthField; split <;> rfl

theorem setQueueLengthField_turnPhase (n : Nat) (s : Ctrl) :
    (setQueueLengthField n s).snapshot.turnPhase = s.snapshot.turnPhase := by
  unfold setQueueLengthField; split <;> rfl

theorem setQueueLengthField_snapVer_ge (n : Nat) (s : Ctrl) :
    s.snapVer ≤ (setQueueLengthField n s).snapVer := by
  unfold setQueueLengthField; split
  · exact Nat.le_refl _
  · exact Nat.le_succ _

theorem setQueueLengthField_snapVer_bump (n : Nat) (s : Ctrl)
    (h : s.snapshot.queueLength ≠ n) :
    (setQueueLengthField n s).snapVer = s.snapVer + 1 := by
  unfold setQueueLengthField
  split
  · exact absurd (by assumption) h
  · rfl

theorem setBatchTurnStart_snapVer_ge (t : Turn) (s : Ctrl) :
    s.snapVer ≤ (setBatchTurnStart t s).snapVer := by
  unfold setBatchTurnStart; split
  · exact Nat.le_refl _
  · exact Nat.le_succ _

theorem setBatchDestroy_status (s : Ctrl) :
    (setBatchDestroy s).snapshot.status = s.snapshot.status := by
  unfold setBatchDestroy; split <;> rfl

theorem setBatchDestroy_showAll (s : Ctrl) :
    (setBatchDestroy s).snapshot.showAll = s.snapshot.showAll := by
  unfold setBatchDestroy; split <;> rfl

theorem setBatchDestroy_connected (s : Ctrl) :
    (setBatchDestroy s).snapshot.connected = false := by
  unfold setBatchDestroy
  split
  · simp_all
  · rfl

theorem setBatchDestroy_turnPhase (s : Ctrl) :
    (setBatchDestroy s).snapshot.turnPhase = .idle := by
  unfold setBatchDestroy
  split
  · simp_all
  · rfl

theorem setBatchDestroy_currentTurn (s : Ctrl) :
    (setBatchDestroy s).snapshot.currentTurn = none := by
  unfold setBatchDestroy
  split
  · simp_all
  · rfl

theorem setBatchDestroy_currentMessage (s : Ctrl) :
    (setBatchDestroy s).snapshot.currentMessage = none := by
  unfold setBatchDestroy
  split
  · simp_all
  · rfl

theorem setBatchDestroy_queueLength (s : Ctrl) :
    (setBatchDestroy s).snapshot.queueLength = 0 := by
  unfold setBatchDestroy
  split
  · simp_all
  · rfl

theorem setBatchDestroy_destroyed (s : Ctrl) :
    (setBatchDestroy s).destroyed = s.destroyed := by
  unfold setBatchDestroy; split <;> rfl

theorem setBatchDestroy_timer (s : Ctrl) :
    (setBatchDestroy s).timer = s.timer := by
  unfold setBatchDestroy; split <;> rfl

theorem setBatchDestroy_audio (s : Ctrl) :
    (setBatchDestroy s).audio = s.audio := by
  unfold setBatchDestroy; split <;> rfl

theorem setBatchDestroy_client (s : Ctrl) :
    (setBatchDestroy s).client = s.client := by
  unfold setBatchDestroy; split <;> rfl

theorem setBatchDestroy_queue (s : Ctrl) :
    (setBatchDestroy s).queue = s.queue := by
  unfold setBatchDestroy; split <;> rfl

theorem setBatchDestroy_processing (s : Ctrl) :
    (setBatchDestroy s).processing = s.processing := by
  unfold setBatchDestroy; split <;> rfl

theorem setBatchDestroy_pendingTts (s : Ctrl) :
    (setBatchDestroy s).pendingTts = s.pendingTts := by
  unfold setBatchDestroy; split <;> rfl

theorem setBatchDestroy_source (s : Ctrl) :
    (setBatchDestroy s).source = s.source := by
  unfold setBatchDestroy; split <;> rfl

theorem setBatchDestroy_connectedAudioEl (s : Ctrl) :
    (setBatchDestroy s).connectedAudioEl = s.connectedAudioEl := by
  unfold setBatchDestroy; split <;> rfl

theorem setBatchDestroy_amplitude (s : Ctrl) :
    (setBatchDestroy s).amplitude = s.amplitude := by
  unfold setBatchDestroy; split <;> rfl

theorem setBatchDestroy_emitted (s : Ctrl) :
    (setBatchDestroy s).emitted = s.emitted := by
  unfold setBatchDestroy; split <;> rfl

/-! ### Lemmas about the queue operations -/

theorem processTalkSync_snapVer (id text : String) (s : Ctrl) :
    (processTalkSync id text s).snapVer = s.snapVer + 1 := rfl

theorem processTurnSync_snapVer_ge (id : String) (t : Turn) (s : Ctrl) :
    s.snapVer ≤ (processTurnSync id t s).snapVer := by
  unfold processTurnSync
  exact setBatchTurnStart_snapVer_ge t s

theorem processNext_snapVer_ge (s : Ctrl) :
    s.snapVer ≤ (processNext s).snapVer := by
  unfold processNext
  split
  · exact Nat.le_refl _
  · split
    · exact Nat.le_refl _
    · rename_i item rest _
      cases item with
      | talk id text =>
        calc s.snapVer
            ≤ (setQueueLengthField rest.length
                { s with processing := true, queue := rest }).snapVer :=
              setQueueLengthField_snapVer_ge rest.length
                { s with processing := true, queue := rest }
          _ ≤ _ := by
              rw [processTalkSync_snapVer]
              exact Nat.le_succ _
      | replyTurn id t =>
        calc s.snapVer
            ≤ (setQueueLengthField rest.length
                { s with processing := true, queue := rest }).snapVer :=
              setQueueLengthField_snapVer_ge rest.length
                { s with processing := true, queue := rest }
          _ ≤ _ := processTurnSync_snapVer_ge _ _ _

theorem enqueue_not_destroyed (i : QueueItem) (s : Ctrl) (hd : s.destroyed = false) :
    enqueue i s =
      (let s2 := setQueueLengthField (s.queue ++ [i]).length { s with queue := s.queue ++ [i] }
       if s2.processing then s2 else processNext s2) := by
  unfold enqueue
  rw [if_neg (by simp [hd])]

theorem enqueue_busy (i : QueueItem) (s : Ctrl)
    (hd : s.destroyed = false) (hp : s.processing = true) :
    enqueue i s = setQueueLengthField (s.queue ++ [i]).length { s with queue := s.queue ++ [i] } := by
  rw [enqueue_not_destroyed i s hd]
  simp only []
  rw [if_pos (by rw [setQueueLengthField_processing]; exact hp)]

theorem enqueue_snapVer_lt (i : QueueItem) (s : Ctrl)
    (hd : s.destroyed = false) (hql : s.snapshot.queueLength = s.queue.length) :
    s.snapVer < (enqueue i s).snapVer := by
  rw [enqueue_not_destroyed i s hd]
  simp only []
  have hbump : (setQueueLengthField (s.queue ++ [i]).length
      { s with queue := s.queue ++ [i] }).snapVer = s.snapVer + 1 := by
    apply setQueueLengthField_snapVer_bump
    show s.snapshot.queueLength ≠ (s.queue ++ [i]).length
    simp [hql]
  split
  · omega
  · have hge := processNext_snapVer_ge (setQueueLengthField (s.queue ++ [i]).length
      { s with queue := s.queue ++ [i] })
    omega

theorem enqueueAll_busy (items : List QueueItem) (s : Ctrl)
    (hd : s.destroyed = false) (hp : s.processing = true)
    (hql : s.snapshot.queueLength = s.queue.length) :
    (enqueueAll items s).queue = s.queue ++ items ∧
    (enqueueAll items s).processing = true ∧
    (enqueueAll items s).destroyed = false ∧
    (enqueueAll items s).snapshot.queueLength = s.queue.length + items.length ∧
    (enqueueAll items s).snapshot.currentMessage = s.snapshot.currentMessage ∧
    (enqueueAll items s).snapshot.currentTurn = s.snapshot.currentTurn ∧
    (enqueueAll items s).snapshot.turnPhase = s.snapshot.turnPhase ∧
    (enqueueAll items s).pendingTts = s.pendingTts := by
  induction items generalizing s with
  | nil =>
    simp [enqueueAll, hp, hd, hql]
  | cons i rest ih =>
    have hstep : enqueue i s =
        setQueueLengthField (s.queue ++ [i]).length { s with queue := s.queue ++ [i] } :=
      enqueue_busy i s hd hp
    have h1 : (enqueue i s).destroyed = false := by
      rw [hstep, setQueueLengthField_destroyed]; exact hd
    have h2 : (enqueue i s).processing = true := by
      rw [hstep, setQueueLengthField_processing]; exact hp
    have h3 : (enqueue i s).queue = s.queue ++ [i] := by
      rw [hstep, setQueueLengthField_queue]
    have h4 : (enqueue i s).snapshot.queueLength = (enqueue i s).queue.length := by
      rw [hstep, setQueueLengthField_queueLength, setQueueLengthField_queue]
    have hAll : enqueueAll (i :: rest) s = enqueueAll rest (enqueue i s) := rfl
    obtain ⟨q, p, d, l, m, t, ph, pt⟩ := ih (enqueue i s) h1 h2 h4
    refine ⟨?_, p, d, ?_, ?_, ?_, ?_, ?_⟩
    · rw [hAll, q, h3]; simp
    · rw [hAll, l, h3]
      simp
      omega
    · rw [hAll, m, hstep, setQueueLengthField_currentMessage]
    · rw [hAll, t, hstep, setQueueLengthField_currentTurn]
    · rw [hAll, ph, hstep, setQueueLengthField_turnPhase]
    · rw [hAll, pt, hstep, setQueueLengthField_pendingTts]

theorem enqueue_idle (it : QueueItem) (s : Ctrl)
    (hd : s.destroyed = false) (hp : s.processing = false) (hq : s.queue = []) :
    enqueue it s =
      (let s2 := setQueueLengthField 1 { s with queue := [it] }
       let s3 := setQueueLengthField 0 { s2 with processing := true, queue := [] }
       match it with
       | .talk id text => processTalkSync id text s3
       | .replyTurn id t => processTurnSync id t s3) := by
  rw [enqueue_not_destroyed it s hd]
  simp only [hq]
  rw [if_neg (by rw [setQueueLengthField_processing]; simp [hp])]
  show processNext (setQueueLengthField ([] ++ [it]).length { s with queue := [] ++ [it] }) = _
  unfold processNext
  rw [if_neg (by
    rw [setQueueLengthField_destroyed, setQueueLengthField_queue]
    simp [hd])]
  have hqq : (setQueueLengthField ([] ++ [it]).length { s with queue := [] ++ [it] }).queue
      = [it] := by rw [setQueueLengthField_queue]; rfl
  simp only [List.nil_append, List.length_cons, List.length_nil] at hqq ⊢
  rw [hqq]
  rfl

theorem setBatchTurnStart_turnPhase (t : Turn) (s : Ctrl) :
    (setBatchTurnStart t s).snapshot.turnPhase = .chat := by
  unfold setBatchTurnStart
  split
  · rename_i h; exact h.2
  · rfl

theorem setBatchTurnStart_currentTurn (t : Turn) (s : Ctrl) :
    (setBatchTurnStart t s).snapshot.currentTurn = some t := by
  unfold setBatchTurnStart
  split
  · rename_i h; exact h.1
  · rfl

theorem setBatchTurnStart_queue (t : Turn) (s : Ctrl) :
    (setBatchTurnStart t s).queue = s.queue := by
  unfold setBatchTurnStart; split <;> rfl

theorem setBatchTurnStart_processing (t : Turn) (s : Ctrl) :
    (setBatchTurnStart t s).processing = s.processing := by
  unfold setBatchTurnStart; split <;> rfl

theorem setBatchTurnStart_destroyed (t : Turn) (s : Ctrl) :
    (setBatchTurnStart t s).destroyed = s.destroyed := by
  unfold setBatchTurnStart; split <;> rfl

theorem setBatchTurnStart_queueLength (t : Turn) (s : Ctrl) :
    (setBatchTurnStart t s).snapshot.queueLength = s.snapshot.queueLength := by
  unfold setBatchTurnStart; split <;> rfl

theorem enqueue_idle_fields (it : QueueItem) (s : Ctrl)
    (hd : s.destroyed = false) (hp : s.processing = false) (hq : s.queue = []) :
    (enqueue it s).queue = [] ∧ (enqueue it s).processing = true ∧
    (enqueue it s).destroyed = false ∧
    (enqueue it s).snapshot.queueLength = 0 ∧
    (∀ id text, it = QueueItem.talk id text →
       (enqueue it s).snapshot.currentMessage = some { text := text } ∧
       (enqueue it s).pendingTts = some (.talkP id text)) ∧
    (∀ id t, it = QueueItem.replyTurn id t →
       (enqueue it s).snapshot.turnPhase = .chat ∧
       (enqueue it s).snapshot.currentTurn = some t ∧
       (enqueue it s).pendingTts = some (.turnP id t)) := by
  rw [enqueue_idle it s hd hp hq]
  cases it with
  | talk id text =>
    refine ⟨?_, ?_, ?_, ?_, ?_, ?_⟩
    · show (processTalkSync id text _).queue = []
      show (setQueueLengthField 0 _).queue = []
      rw [setQueueLengthField_queue]
    · show (setQueueLengthField 0 _).processing = true
      rw [setQueueLengthField_processing]
    · show (setQueueLengthField 0 _).destroyed = _
      rw [setQueueLengthField_destroyed]
      show (setQueueLengthField 1 _).destroyed = _
      rw [setQueueLengthField_destroyed]
      exact hd
    · show (setQueueLengthField 0 _).snapshot.queueLength = 0
      rw [setQueueLengthField_queueLength]
    · intro id2 text2 h
      injection h with h1 h2
      subst h1; subst h2
      exact ⟨rfl, rfl⟩
    · intro id2 t2 h
      exact absurd h (by simp)
  | replyTurn id t =>
    refine ⟨?_, ?_, ?_, ?_, ?_, ?_⟩
    · show (processTurnSync id t _).queue = []
      show (setBatchTurnStart t _).queue = []
      rw [setBatchTurnStart_queue, setQueueLengthField_queue]
    · show (setBatchTurnStart t _).processing = true
      rw [setBatchTurnStart_processing, setQueueLengthField_processing]
    · show (setBatchTurnStart t _).destroyed = _
      rw [setBatchTurnStart_destroyed, setQueueLengthField_destroyed]
      show (setQueueLengthField 1 _).destroyed = _
      rw [setQueueLengthField_destroyed]
      exact hd
    · show (setBatchTurnStart t _).snapshot.queueLength = 0
      rw [setBatchTurnStart_queueLength, setQueueLengthField_queueLength]
    · intro id2 text2 h
      exact absurd h (by simp)
    · intro id2 t2 h
      injection h with h1 h2
      subst h1; subst h2
      exact ⟨setBatchTurnStart_turnPhase t _, setBatchTurnStart_currentTurn t _, rfl⟩

/-! ### Destroyed-state lemmas -/

theorem destroy_eq (s : Ctrl) :
    destroy s = setBatchDestroy
      { s with destroyed := true, timer := none, audio := none, source := false,
               connectedAudioEl := none, amplitude := 0, rafActive := false,
               audioCtx := false, client := false, queue := [], processing := false } := rfl

theorem destroy_destroyed (s : Ctrl) : (destroy s).destroyed = true := by
  rw [destroy_eq, setBatchDestroy_destroyed]

theorem destroy_timer (s : Ctrl) : (destroy s).timer = none := by
  rw [destroy_eq, setBatchDestroy_timer]

theorem destroy_audio (s : Ctrl) : (destroy s).audio = none := by
  rw [destroy_eq, setBatchDestroy_audio]

theorem destroy_client (s : Ctrl) : (destroy s).client = false := by
  rw [destroy_eq, setBatchDestroy_client]

theorem destroy_queue (s : Ctrl) : (destroy s).queue = [] := by
  rw [destroy_eq, setBatchDestroy_queue]

theorem destroy_processing (s : Ctrl) : (destroy s).processing = false := by
  rw [destroy_eq, setBatchDestroy_processing]

theorem destroy_pendingTts (s : Ctrl) : (destroy s).pendingTts = s.pendingTts := by
  rw [destroy_eq, setBatchDestroy_pendingTts]

theorem destroy_source (s : Ctrl) : (destroy s).source = false := by
  rw [destroy_eq, setBatchDestroy_source]

theorem destroy_connectedAudioEl (s : Ctrl) : (destroy s).connectedAudioEl = none := by
  rw [destroy_eq, setBatchDestroy_connectedAudioEl]

theorem destroy_amplitude (s : Ctrl) : (destroy s).amplitude = 0 := by
  rw [destroy_eq, setBatchDestroy_amplitude]

theorem destroy_emitted (s : Ctrl) : (destroy s).emitted = s.emitted := by
  rw [destroy_eq, setBatchDestroy_emitted]

theorem enqueue_destroyed (it : QueueItem) (s : Ctrl) (h : s.destroyed = true) :
    enqueue it s = s := by
  unfold enqueue
  rw [if_pos h]

theorem connect_destroyed (s : Ctrl) (h : s.destroyed = true) :
    connect s = s := by
  unfold connect
  rw [if_pos (Or.inr h)]

theorem processTalkResume_destroyed (id : String) (r : Option TtsResult) (s : Ctrl)
    (h : s.destroyed = true) :
    processTalkResume id r s = { s with pendingTts := none } := by
  unfold processTalkResume
  simp only []
  rw [if_pos (show ({ s with pendingTts := none } : Ctrl).destroyed = true from h)]

theorem processTurnResume_destroyed (id : String) (c b : Option TtsResult) (s : Ctrl)
    (h : s.destroyed = true) :
    processTurnResume id c b s = { s with pendingTts := none } := by
  unfold processTurnResume
  simp only []
  rw [if_pos (show ({ s with pendingTts := none } : Ctrl).destroyed = true from h)]

theorem audioEndedEv_noAudio (s : Ctrl) (h : s.audio = none) : audioEndedEv s = s := by
  unfold audioEndedEv
  rw [h]

theorem audioErrorEv_noAudio (s : Ctrl) (h : s.audio = none) : audioErrorEv s = s := by
  unfold audioErrorEv
  rw [h]

theorem playRejectedEv_noAudio (s : Ctrl) (h : s.audio = none) : playRejectedEv s = s := by
  unfold playRejectedEv
  rw [h]

theorem fireTimer_noTimer (s : Ctrl) (h : s.timer = none) : fireTimer s = s := by
  unfold fireTimer
  rw [h]

theorem step_after_destroy (s : Ctrl) (e : Ev) :
    (step (destroy s) e).snapshot = (destroy s).snapshot ∧
    (step (destroy s) e).processing = false ∧
    (step (destroy s) e).emitted = (destroy s).emitted := by
  have hd := destroy_destroyed s
  have hp := destroy_processing s
  cases e with
  | ttsTalkDone o =>
    have hstep : step (destroy s) (Ev.ttsTalkDone o) =
        (match (destroy s).pendingTts with
         | some (.talkP id _) => processTalkResume id o.toResult (destroy s)
         | _ => destroy s) := rfl
    rw [hstep, destroy_pendingTts]
    cases hpt : s.pendingTts with
    | none => exact ⟨rfl, hp, rfl⟩
    | some p =>
      cases p with
      | talkP id text =>
        simp only []
        rw [processTalkResume_destroyed id _ (destroy s) hd]
        exact ⟨rfl, hp, rfl⟩
      | turnP id t => exact ⟨rfl, hp, rfl⟩
  | ttsTurnDone o =>
    have hstep : step (destroy s) (Ev.ttsTurnDone o) =
        (match (destroy s).pendingTts with
         | some (.turnP id _) => processTurnResume id o.chatResult o.botResult (destroy s)
         | _ => destroy s) := rfl
    rw [hstep, destroy_pendingTts]
    cases hpt : s.pendingTts with
    | none => exact ⟨rfl, hp, rfl⟩
    | some p =>
      cases p with
      | talkP id text => exact ⟨rfl, hp, rfl⟩
      | turnP id t =>
        simp only []
        rw [processTurnResume_destroyed id _ _ (destroy s) hd]
        exact ⟨rfl, hp, rfl⟩
  | audioEnded =>
    have hstep : step (destroy s) Ev.audioEnded = destroy s :=
      audioEndedEv_noAudio _ (destroy_audio s)
    rw [hstep]
    exact ⟨rfl, hp, rfl⟩
  | audioError =>
    have hstep : step (destroy s) Ev.audioError = destroy s :=
      audioErrorEv_noAudio _ (destroy_audio s)
    rw [hstep]
    exact ⟨rfl, hp, rfl⟩
  | playRejected =>
    have hstep : step (destroy s) Ev.playRejected = destroy s :=
      playRejectedEv_noAudio _ (destroy_audio s)
    rw [hstep]
    exact ⟨rfl, hp, rfl⟩
  | timerFire =>
    have hstep : step (destroy s) Ev.timerFire = destroy s :=
      fireTimer_noTimer _ (destroy_timer s)
    rw [hstep]
    exact ⟨rfl, hp, rfl⟩

theorem audioEndedEv_playback (s : Ctrl) (url fid : String) (vol : ℚ)
    (ha : s.audio = some { url := url, volume := vol, handlers := .playback url fid })
    (hc : s.connectedAudioEl = some url) :
    audioEndedEv s =
      { s with amplitude := 0
               rafActive := false
               timer := some (.revokeFinishC url fid, POST_AUDIO_DELAY_MS) } := by
  unfold audioEndedEv
  rw [ha]
  simp only []
  rw [if_pos hc]
  rfl

/-! ### Claim theorems -/

/-- C2: for every sequence of N enqueue calls made while the controller is
idle (not destroyed, not processing, empty queue), the first item begins
processing synchronously — in particular for a talk item `currentMessage` is
set to `{text}` with its TTS request still pending, i.e. before any
asynchronous TTS resolution — and the snapshot field `queueLength` equals N−1
immediately after the Nth call, the items beyond the first being queued. -/
theorem enqueue_sequence_from_idle (s : Ctrl) (it : QueueItem) (rest : List QueueItem)
    (hd : s.destroyed = false) (hp : s.processing = false) (hq : s.queue = []) :
    (enqueueAll (it :: rest) s).snapshot.queueLength = (it :: rest).length - 1 ∧
    (enqueueAll (it :: rest) s).queue = rest ∧
    (enqueueAll (it :: rest) s).processing = true ∧
    (∀ id text, it = QueueItem.talk id text →
      (enqueueAll (it :: rest) s).snapshot.currentMessage = some { text := text } ∧
      (enqueueAll (it :: rest) s).pendingTts = some (.talkP id text)) := by
  obtain ⟨e_q, e_p, e_d, e_l, e_talk, e_turn⟩ := enqueue_idle_fields it s hd hp hq
  have hql : (enqueue it s).snapshot.queueLength = (enqueue it s).queue.length := by
    rw [e_l, e_q]
    rfl
  obtain ⟨q, p, d, l, m, t, ph, pt⟩ := enqueueAll_busy rest (enqueue it s) e_d e_p hql
  have hAll : enqueueAll (it :: rest) s = enqueueAll rest (enqueue it s) := rfl
  refine ⟨?_, ?_, ?_, ?_⟩
  · rw [hAll, l, e_q]
    simp
  · rw [hAll, q, e_q]
    simp
  · rw [hAll]
    exact p
  · intro id text hit
    obtain ⟨hm, hpt2⟩ := e_talk id text hit
    exact ⟨by rw [hAll, m, hm], by rw [hAll, pt, hpt2]⟩

/-- Witness for C2 at a concrete input: two talk items enqueued into a fresh
controller leave one item queued and the first one displayed. -/
theorem enqueue_sequence_from_idle_witness :
    (enqueueAll [QueueItem.talk "t1" "First", QueueItem.talk "t2" "Second"]
      initCtrl).snapshot.queueLength = 1 ∧
    (enqueueAll [QueueItem.talk "t1" "First", QueueItem.talk "t2" "Second"]
      initCtrl).snapshot.currentMessage = some { text := "First" } := by
  obtain ⟨hl, _, _, htalk⟩ := enqueue_sequence_from_idle initCtrl
    (QueueItem.talk "t1" "First") [QueueItem.talk "t2" "Second"] rfl rfl rfl
  exact ⟨hl, (htalk "t1" "First" rfl).1⟩

/-- C3 as stated is false: `destroy()` does not reset every snapshot field to
its construction value — the `_setBatch` in `destroy` omits `status` (and
`showAll`), so a status set before destruction survives it. -/
theorem destroy_not_full_reset :
    (destroy (setStatus OverlayStatus.vibing initCtrl)).snapshot ≠ initialSnapshot := by
  decide

/-- C3 (amended): `destroy()` cancels the timer, stops the audio, detaches
the analyzer (source/element/amplitude cleared), disconnects the client,
empties the queue, and resets `connected`, `turnPhase`, `currentTurn`,
`currentMessage` and `queueLength` to their initial values — but `status`
and `showAll` keep their pre-destroy values.  No further processing occurs:
`enqueue` is a no-op afterwards and no delivered event changes the snapshot,
restarts processing or emits anything. -/
theorem destroy_resets_and_halts (s : Ctrl) :
    (destroy s).timer = none ∧ (destroy s).audio = none ∧
    (destroy s).source = false ∧ (destroy s).connectedAudioEl = none ∧
    (destroy s).amplitude = 0 ∧ (destroy s).client = false ∧
    (destroy s).queue = [] ∧ (destroy s).processing = false ∧
    (destroy s).destroyed = true ∧
    (destroy s).snapshot.connected = initialSnapshot.connected ∧
    (destroy s).snapshot.turnPhase = initialSnapshot.turnPhase ∧
    (destroy s).snapshot.currentTurn = initialSnapshot.currentTurn ∧
    (destroy s).snapshot.currentMessage = initialSnapshot.currentMessage ∧
    (destroy s).snapshot.queueLength = initialSnapshot.queueLength ∧
    (destroy s).snapshot.status = s.snapshot.status ∧
    (destroy s).snapshot.showAll = s.snapshot.showAll ∧
    (∀ it, enqueue it (destroy s) = destroy s) ∧
    (∀ e, (step (destroy s) e).snapshot = (destroy s).snapshot ∧
          (step (destroy s) e).processing = false ∧
          (step (destroy s) e).emitted = (destroy s).emitted) := by
  refine ⟨destroy_timer s, destroy_audio s, destroy_source s, destroy_connectedAudioEl s,
    destroy_amplitude s, destroy_client s, destroy_queue s, destroy_processing s,
    destroy_destroyed s, ?_, ?_, ?_, ?_, ?_, ?_, ?_, ?_, ?_⟩
  · rw [destroy_eq, setBatchDestroy_connected]
    rfl
  · rw [destroy_eq, setBatchDestroy_turnPhase]
    rfl
  · rw [destroy_eq, setBatchDestroy_currentTurn]
    rfl
  · rw [destroy_eq, setBatchDestroy_currentMessage]
    rfl
  · rw [destroy_eq, setBatchDestroy_queueLength]
    rfl
  · rw [destroy_eq, setBatchDestroy_status]
  · rw [destroy_eq, setBatchDestroy_showAll]
  · intro it
    exact enqueue_destroyed it _ (destroy_destroyed s)
  · exact step_after_destroy s

/-- C4 as stated is false: `setStatus` after `destroy()` is not ignored —
it has no destroyed guard and changes the snapshot. -/
theorem setStatus_after_destroy_changes_state :
    (setStatus OverlayStatus.vibing (destroy initCtrl)).snapshot ≠
      (destroy initCtrl).snapshot := by
  decide

/-- C4 (amended): after `destroy()`, `enqueue` and `connect` are silently
ignored (no error, the state is entirely unchanged); but `setStatus` and
`setShowAll` carry no destroyed guard and still replace the snapshot when
handed a value different from the current one. -/
theorem after_destroy_ops (s : Ctrl) (it : QueueItem) (v : OverlayStatus) (b : Bool) :
    enqueue it (destroy s) = destroy s ∧
    connect (destroy s) = destroy s ∧
    (v ≠ (destroy s).snapshot.status →
      (setStatus v (destroy s)).snapshot.status = v ∧
      (setStatus v (destroy s)).snapVer = (destroy s).snapVer + 1) ∧
    (b ≠ (destroy s).snapshot.showAll →
      (setShowAll b (destroy s)).snapshot.showAll = b ∧
      (setShowAll b (destroy s)).snapVer = (destroy s).snapVer + 1) := by
  refine ⟨enqueue_destroyed it _ (destroy_destroyed s),
    connect_destroyed _ (destroy_destroyed s), ?_, ?_⟩
  · intro hv
    unfold setStatus setStatusField
    rw [if_neg (fun h => hv h.symm)]
    exact ⟨rfl, rfl⟩
  · intro hb
    unfold setShowAll setShowAllField
    rw [if_neg (fun h => hb h.symm)]
    exact ⟨rfl, rfl⟩

/-- Witness for C4 (amended) at a concrete input. -/
theorem after_destroy_ops_witness :
    enqueue (QueueItem.talk "a" "x") (destroy initCtrl) = destroy initCtrl ∧
    (setStatus OverlayStatus.vibing (destroy initCtrl)).snapshot.status =
      OverlayStatus.vibing ∧
    (setShowAll true (destroy initCtrl)).snapshot.showAll = true := by
  obtain ⟨h1, _, h3, h4⟩ := after_destroy_ops initCtrl (QueueItem.talk "a" "x")
    OverlayStatus.vibing true
  exact ⟨h1, (h3 (by decide)).1, (h4 (by decide)).1⟩

/-- C8: `getSnapshot` returns the stored snapshot; a mutator handed the
current value returns the very same state (so the snapshot reference is
unchanged across the two calls); a mutator handed a different value
allocates a new snapshot (version bump); and `enqueue` on a live controller
always allocates a new snapshot (the queue length changes). -/
theorem snapshot_identity_stability (s : Ctrl) (v : OverlayStatus) (b : Bool) (it : QueueItem) :
    getSnapshot s = s.snapshot ∧
    (v = s.snapshot.status → setStatus v s = s) ∧
    (v ≠ s.snapshot.status → (setStatus v s).snapVer = s.snapVer + 1) ∧
    (b = s.snapshot.showAll → setShowAll b s = s) ∧
    (b ≠ s.snapshot.showAll → (setShowAll b s).snapVer = s.snapVer + 1) ∧
    (s.destroyed = false → s.snapshot.queueLength = s.queue.length →
      s.snapVer < (enqueue it s).snapVer) := by
  refine ⟨rfl, ?_, ?_, ?_, ?_, fun hd hql => enqueue_snapVer_lt it s hd hql⟩
  · intro h
    unfold setStatus setStatusField
    rw [if_pos h.symm]
  · intro h
    unfold setStatus setStatusField
    rw [if_neg (fun hh => h hh.symm)]
  · intro h
    unfold setShowAll setShowAllField
    rw [if_pos h.symm]
  · intro h
    unfold setShowAll setShowAllField
    rw [if_neg (fun hh => h hh.symm)]

/-- C6: for a talk item, when `generateTts` rejects or resolves to null the
two cases are indistinguishable, no blob and no audio resource is created,
the failure is not surfaced (the item still completes with its ack), and
`finish` is scheduled after exactly the no-TTS delay (3000 ms). -/
theorem talk_no_tts_fallback (id text : String) :
    step (enqueue (QueueItem.talk id text) (connect initCtrl))
        (Ev.ttsTalkDone (TtsOutcome.resolved none)) =
      step (enqueue (QueueItem.talk id text) (connect initCtrl))
        (Ev.ttsTalkDone TtsOutcome.threw) ∧
    (step (enqueue (QueueItem.talk id text) (connect initCtrl))
        (Ev.ttsTalkDone (TtsOutcome.resolved none))).createdBlobs = [] ∧
    (step (enqueue (QueueItem.talk id text) (connect initCtrl))
        (Ev.ttsTalkDone (TtsOutcome.resolved none))).createdAudios = [] ∧
    (step (enqueue (QueueItem.talk id text) (connect initCtrl))
        (Ev.ttsTalkDone (TtsOutcome.resolved none))).timer =
      some (TimerCont.finishC id, NO_TTS_DELAY_MS) ∧
    (run (enqueue (QueueItem.talk id text) (connect initCtrl))
        [Ev.ttsTalkDone (TtsOutcome.resolved none), Ev.timerFire]).snapshot.currentMessage
      = none ∧
    (run (enqueue (QueueItem.talk id text) (connect initCtrl))
        [Ev.ttsTalkDone (TtsOutcome.resolved none), Ev.timerFire]).emitted
      = [("talk:done", id)] :=
  ⟨rfl, rfl, rfl, rfl, rfl, rfl⟩

set_option maxHeartbeats 4000000 in
/-- C1: for every queue item — talk or reply-turn — processed to completion
with a connected client, exactly one `talk:done` acknowledgment carrying the
id of that item is emitted by the shared finish step, only after the
audio/delay phase concluded (nothing is emitted before the finishing timer
fires), regardless of whether TTS succeeded: the talk paths normal audio
end, playback error and no TTS, and the reply-turn paths with both TTS
results, neither, chat only and bot only; and the next queued item begins
processing only once the inter-item gap timer (1500 ms) scheduled by finish
fires. -/
theorem ack_exactly_once_per_item (id text id2 text2 b64 p b64c pc b64b pb : String)
    (t : Turn) :
    ((step (step (run (enqueue (QueueItem.talk id text) (connect initCtrl))
        [Ev.ttsTalkDone (TtsOutcome.resolved (some { base64 := b64, provider := p }))])
        Ev.audioEnded) Ev.timerFire).emitted = [("talk:done", id)] ∧
     (step (step (run (enqueue (QueueItem.talk id text) (connect initCtrl))
        [Ev.ttsTalkDone (TtsOutcome.resolved (some { base64 := b64, provider := p }))])
        Ev.audioEnded) Ev.timerFire).timer = some (TimerCont.processNextC, BUBBLE_GAP_MS) ∧
     (step (run (enqueue (QueueItem.talk id text) (connect initCtrl))
        [Ev.ttsTalkDone (TtsOutcome.resolved (some { base64 := b64, provider := p }))])
        Ev.audioEnded).emitted = []) ∧
    ((run (enqueue (QueueItem.talk id text) (connect initCtrl))
        [Ev.ttsTalkDone (TtsOutcome.resolved (some { base64 := b64, provider := p })),
         Ev.audioError, Ev.timerFire]).emitted = [("talk:done", id)] ∧
     (run (enqueue (QueueItem.talk id text) (connect initCtrl))
        [Ev.ttsTalkDone (TtsOutcome.resolved (some { base64 := b64, provider := p })),
         Ev.audioError, Ev.timerFire]).timer = some (TimerCont.processNextC, BUBBLE_GAP_MS) ∧
     (run (enqueue (QueueItem.talk id text) (connect initCtrl))
        [Ev.ttsTalkDone (TtsOutcome.resolved (some { base64 := b64, provider := p })),
         Ev.audioError]).emitted = []) ∧
    ((run (enqueue (QueueItem.talk id text) (connect initCtrl))
        [Ev.ttsTalkDone (TtsOutcome.resolved none), Ev.timerFire]).emitted
        = [("talk:done", id)] ∧
     (run (enqueue (QueueItem.talk id text) (connect initCtrl))
        [Ev.ttsTalkDone (TtsOutcome.resolved none), Ev.timerFire]).timer
        = some (TimerCont.processNextC, BUBBLE_GAP_MS)) ∧
    ((run (enqueue (QueueItem.talk id2 text2) (enqueue (QueueItem.talk id text)
        (connect initCtrl)))
        [Ev.ttsTalkDone (TtsOutcome.resolved none), Ev.timerFire]).emitted
        = [("talk:done", id)] ∧
     (run (enqueue (QueueItem.talk id2 text2) (enqueue (QueueItem.talk id text)
        (connect initCtrl)))
        [Ev.ttsTalkDone (TtsOutcome.resolved none), Ev.timerFire]).snapshot.currentMessage
        = none ∧
     (run (enqueue (QueueItem.talk id2 text2) (enqueue (QueueItem.talk id text)
        (connect initCtrl)))
        [Ev.ttsTalkDone (TtsOutcome.resolved none), Ev.timerFire]).queue
        = [QueueItem.talk id2 text2] ∧
     (run (enqueue (QueueItem.talk id2 text2) (enqueue (QueueItem.talk id text)
        (connect initCtrl)))
        [Ev.ttsTalkDone (TtsOutcome.resolved none), Ev.timerFire]).timer
        = some (TimerCont.processNextC, BUBBLE_GAP_MS) ∧
     (step (run (enqueue (QueueItem.talk id2 text2) (enqueue (QueueItem.talk id text)
        (connect initCtrl)))
        [Ev.ttsTalkDone (TtsOutcome.resolved none), Ev.timerFire])
        Ev.timerFire).snapshot.currentMessage = some { text := text2 } ∧
     (step (run (enqueue (QueueItem.talk id2 text2) (enqueue (QueueItem.talk id text)
        (connect initCtrl)))
        [Ev.ttsTalkDone (TtsOutcome.resolved none), Ev.timerFire])
        Ev.timerFire).pendingTts = some (PendingTts.talkP id2 text2)) ∧
    ((step (step (run (enqueue (QueueItem.replyTurn id t) (connect initCtrl))
        [Ev.ttsTurnDone (TurnTtsOutcome.resolved (some { base64 := b64c, provider := pc })
          (some { base64 := b64b, provider := pb })), Ev.audioEnded, Ev.timerFire])
        Ev.audioEnded) Ev.timerFire).emitted = [("talk:done", id)] ∧
     (step (step (run (enqueue (QueueItem.replyTurn id t) (connect initCtrl))
        [Ev.ttsTurnDone (TurnTtsOutcome.resolved (some { base64 := b64c, provider := pc })
          (some { base64 := b64b, provider := pb })), Ev.audioEnded, Ev.timerFire])
        Ev.audioEnded) Ev.timerFire).timer = some (TimerCont.processNextC, BUBBLE_GAP_MS) ∧
     (step (run (enqueue (QueueItem.replyTurn id t) (connect initCtrl))
        [Ev.ttsTurnDone (TurnTtsOutcome.resolved (some { base64 := b64c, provider := pc })
          (some { base64 := b64b, provider := pb })), Ev.audioEnded, Ev.timerFire])
        Ev.audioEnded).emitted = []) ∧
    ((run (enqueue (QueueItem.replyTurn id t) (connect initCtrl))
        [Ev.ttsTurnDone (TurnTtsOutcome.resolved none none), Ev.timerFire]).emitted
        = [("talk:done", id)] ∧
     (run (enqueue (QueueItem.replyTurn id t) (connect initCtrl))
        [Ev.ttsTurnDone (TurnTtsOutcome.resolved none none), Ev.timerFire]).timer
        = some (TimerCont.processNextC, BUBBLE_GAP_MS)) ∧
    ((run (enqueue (QueueItem.replyTurn id t) (connect initCtrl))
        [Ev.ttsTurnDone (TurnTtsOutcome.resolved (some { base64 := b64c, provider := pc })
          none), Ev.audioEnded, Ev.timerFire, Ev.timerFire]).emitted
        = [("talk:done", id)] ∧
     (run (enqueue (QueueItem.replyTurn id t) (connect initCtrl))
        [Ev.ttsTurnDone (TurnTtsOutcome.resolved (some { base64 := b64c, provider := pc })
          none), Ev.audioEnded, Ev.timerFire, Ev.timerFire]).timer
        = some (TimerCont.processNextC, BUBBLE_GAP_MS)) ∧
    ((step (step (run (enqueue (QueueItem.replyTurn id t) (connect initCtrl))
        [Ev.ttsTurnDone (TurnTtsOutcome.resolved none
          (some { base64 := b64b, provider := pb }))]) Ev.audioEnded)
        Ev.timerFire).emitted = [("talk:done", id)] ∧
     (step (step (run (enqueue (QueueItem.replyTurn id t) (connect initCtrl))
        [Ev.ttsTurnDone (TurnTtsOutcome.resolved none
          (some { base64 := b64b, provider := pb }))]) Ev.audioEnded)
        Ev.timerFire).timer = some (TimerCont.processNextC, BUBBLE_GAP_MS)) := by
  have hA : step (run (enqueue (QueueItem.talk id text) (connect initCtrl))
      [Ev.ttsTalkDone (TtsOutcome.resolved (some { base64 := b64, provider := p }))])
      Ev.audioEnded =
      { (run (enqueue (QueueItem.talk id text) (connect initCtrl))
          [Ev.ttsTalkDone (TtsOutcome.resolved (some { base64 := b64, provider := p }))]) with
        amplitude := 0
        rafActive := false
        timer := some (.revokeFinishC (mkBlobUrl b64) id, POST_AUDIO_DELAY_MS) } :=
    audioEndedEv_playback (run (enqueue (QueueItem.talk id text) (connect initCtrl))
      [Ev.ttsTalkDone (TtsOutcome.resolved (some { base64 := b64, provider := p }))])
      (mkBlobUrl b64) id (volumeForProvider (some p)) rfl rfl
  have hB : step (run (enqueue (QueueItem.replyTurn id t) (connect initCtrl))
      [Ev.ttsTurnDone (TurnTtsOutcome.resolved (some { base64 := b64c, provider := pc })
        (some { base64 := b64b, provider := pb })), Ev.audioEnded, Ev.timerFire])
      Ev.audioEnded =
      { (run (enqueue (QueueItem.replyTurn id t) (connect initCtrl))
          [Ev.ttsTurnDone (TurnTtsOutcome.resolved (some { base64 := b64c, provider := pc })
            (some { base64 := b64b, provider := pb })), Ev.audioEnded, Ev.timerFire]) with
        amplitude := 0
        rafActive := false
        timer := some (.revokeFinishC (mkBlobUrl b64b) id, POST_AUDIO_DELAY_MS) } :=
    audioEndedEv_playback (run (enqueue (QueueItem.replyTurn id t) (connect initCtrl))
      [Ev.ttsTurnDone (TurnTtsOutcome.resolved (some { base64 := b64c, provider := pc })
        (some { base64 := b64b, provider := pb })), Ev.audioEnded, Ev.timerFire])
      (mkBlobUrl b64b) id (volumeForProvider (some pb)) rfl rfl
  have hC : step (run (enqueue (QueueItem.replyTurn id t) (connect initCtrl))
      [Ev.ttsTurnDone (TurnTtsOutcome.resolved none
        (some { base64 := b64b, provider := pb }))]) Ev.audioEnded =
      { (run (enqueue (QueueItem.replyTurn id t) (connect initCtrl))
          [Ev.ttsTurnDone (TurnTtsOutcome.resolved none
            (some { base64 := b64b, provider := pb }))]) with
        amplitude := 0
        rafActive := false
        timer := some (.revokeFinishC (mkBlobUrl b64b) id, POST_AUDIO_DELAY_MS) } :=
    audioEndedEv_playback (run (enqueue (QueueItem.replyTurn id t) (connect initCtrl))
      [Ev.ttsTurnDone (TurnTtsOutcome.resolved none
        (some { base64 := b64b, provider := pb }))])
      (mkBlobUrl b64b) id (volumeForProvider (some pb)) rfl rfl
  rw [hA, hB, hC]
  exact ⟨⟨rfl, rfl, rfl⟩, ⟨rfl, rfl, rfl⟩, ⟨rfl, rfl⟩, ⟨rfl, rfl, rfl, rfl, rfl, rfl⟩,
    ⟨rfl, rfl, rfl⟩, ⟨rfl, rfl⟩, ⟨rfl, rfl⟩, ⟨rfl, rfl⟩⟩

/-- C5 as stated is false: when the controller is destroyed during a talk
item is playing, the blob created for it is never revoked — released zero
times on that exit path, not exactly once. -/
theorem blob_leaked_on_destroy_during_playback :
    (destroy (step (enqueue (QueueItem.talk "t1" "Hello") (connect initCtrl))
        (Ev.ttsTalkDone (TtsOutcome.resolved
          (some { base64 := "AAAA", provider := "openai" }))))).createdBlobs
      = ["blob:AAAA"] ∧
    (destroy (step (enqueue (QueueItem.talk "t1" "Hello") (connect initCtrl))
        (Ev.ttsTalkDone (TtsOutcome.resolved
          (some { base64 := "AAAA", provider := "openai" }))))).revokedBlobs
      = [] :=
  ⟨rfl, rfl⟩

set_option maxHeartbeats 4000000 in
/-- C5 (amended): a blob handed to the shared playback routine — the talk
blob and a reply turn's bot blob — is revoked exactly once (created once,
revoked once, same URL) on the normal-audio-end, playback-error and
play-rejection exit paths, but never on the controller-destruction exit
path during playback.  The reply-turn chat blob is revoked by the first
chat-audio ended/error/play-rejection event; a second such event arriving
before the chat audio is stopped revokes it a second time, and when the
chat-phase safety timeout fires instead of any chat-audio event the chat
blob is never revoked. -/
theorem blob_release_per_exit_path (id text b64 p b64c pc b64b pb : String) (t : Turn) :
    ((step (step (run (enqueue (QueueItem.talk id text) (connect initCtrl))
        [Ev.ttsTalkDone (TtsOutcome.resolved (some { base64 := b64, provider := p }))])
        Ev.audioEnded) Ev.timerFire).createdBlobs = [mkBlobUrl b64] ∧
     (step (step (run (enqueue (QueueItem.talk id text) (connect initCtrl))
        [Ev.ttsTalkDone (TtsOutcome.resolved (some { base64 := b64, provider := p }))])
        Ev.audioEnded) Ev.timerFire).revokedBlobs = [mkBlobUrl b64]) ∧
    ((run (enqueue (QueueItem.talk id text) (connect initCtrl))
        [Ev.ttsTalkDone (TtsOutcome.resolved (some { base64 := b64, provider := p })),
         Ev.audioError, Ev.timerFire]).createdBlobs = [mkBlobUrl b64] ∧
     (run (enqueue (QueueItem.talk id text) (connect initCtrl))
        [Ev.ttsTalkDone (TtsOutcome.resolved (some { base64 := b64, provider := p })),
         Ev.audioError, Ev.timerFire]).revokedBlobs = [mkBlobUrl b64]) ∧
    ((run (enqueue (QueueItem.talk id text) (connect initCtrl))
        [Ev.ttsTalkDone (TtsOutcome.resolved (some { base64 := b64, provider := p })),
         Ev.playRejected, Ev.timerFire]).createdBlobs = [mkBlobUrl b64] ∧
     (run (enqueue (QueueItem.talk id text) (connect initCtrl))
        [Ev.ttsTalkDone (TtsOutcome.resolved (some { base64 := b64, provider := p })),
         Ev.playRejected, Ev.timerFire]).revokedBlobs = [mkBlobUrl b64]) ∧
    ((destroy (run (enqueue (QueueItem.talk id text) (connect initCtrl))
        [Ev.ttsTalkDone (TtsOutcome.resolved (some { base64 := b64, provider := p }))])).createdBlobs
        = [mkBlobUrl b64] ∧
     (destroy (run (enqueue (QueueItem.talk id text) (connect initCtrl))
        [Ev.ttsTalkDone (TtsOutcome.resolved (some { base64 := b64, provider := p }))])).revokedBlobs
        = []) ∧
    ((step (step (run (enqueue (QueueItem.replyTurn id t) (connect initCtrl))
        [Ev.ttsTurnDone (TurnTtsOutcome.resolved (some { base64 := b64c, provider := pc })
          (some { base64 := b64b, provider := pb })), Ev.audioEnded, Ev.timerFire])
        Ev.audioEnded) Ev.timerFire).createdBlobs = [mkBlobUrl b64c, mkBlobUrl b64b] ∧
     (step (step (run (enqueue (QueueItem.replyTurn id t) (connect initCtrl))
        [Ev.ttsTurnDone (TurnTtsOutcome.resolved (some { base64 := b64c, provider := pc })
          (some { base64 := b64b, provider := pb })), Ev.audioEnded, Ev.timerFire])
        Ev.audioEnded) Ev.timerFire).revokedBlobs = [mkBlobUrl b64c, mkBlobUrl b64b]) ∧
    ((run (enqueue (QueueItem.replyTurn id t) (connect initCtrl))
        [Ev.ttsTurnDone (TurnTtsOutcome.resolved (some { base64 := b64c, provider := pc })
          (some { base64 := b64b, provider := pb })), Ev.playRejected]).revokedBlobs
        = [mkBlobUrl b64c] ∧
     (run (enqueue (QueueItem.replyTurn id t) (connect initCtrl))
        [Ev.ttsTurnDone (TurnTtsOutcome.resolved (some { base64 := b64c, provider := pc })
          (some { base64 := b64b, provider := pb })), Ev.audioError,
         Ev.audioEnded]).revokedBlobs = [mkBlobUrl b64c, mkBlobUrl b64c]) ∧
    ((run (enqueue (QueueItem.replyTurn id t) (connect initCtrl))
        [Ev.ttsTurnDone (TurnTtsOutcome.resolved (some { base64 := b64c, provider := pc })
          (some { base64 := b64b, provider := pb })), Ev.timerFire]).createdBlobs
        = [mkBlobUrl b64c, mkBlobUrl b64b] ∧
     (run (enqueue (QueueItem.replyTurn id t) (connect initCtrl))
        [Ev.ttsTurnDone (TurnTtsOutcome.resolved (some { base64 := b64c, provider := pc })
          (some { base64 := b64b, provider := pb })), Ev.timerFire]).revokedBlobs
        = []) := by
  have hA : step (run (enqueue (QueueItem.talk id text) (connect initCtrl))
      [Ev.ttsTalkDone (TtsOutcome.resolved (some { base64 := b64, provider := p }))])
      Ev.audioEnded =
      { (run (enqueue (QueueItem.talk id text) (connect initCtrl))
          [Ev.ttsTalkDone (TtsOutcome.resolved (some { base64 := b64, provider := p }))]) with
        amplitude := 0
        rafActive := false
        timer := some (.revokeFinishC (mkBlobUrl b64) id, POST_AUDIO_DELAY_MS) } :=
    audioEndedEv_playback (run (enqueue (QueueItem.talk id text) (connect initCtrl))
      [Ev.ttsTalkDone (TtsOutcome.resolved (some { base64 := b64, provider := p }))])
      (mkBlobUrl b64) id (volumeForProvider (some p)) rfl rfl
  have hB : step (run (enqueue (QueueItem.replyTurn id t) (connect initCtrl))
      [Ev.ttsTurnDone (TurnTtsOutcome.resolved (some { base64 := b64c, provider := pc })
        (some { base64 := b64b, provider := pb })), Ev.audioEnded, Ev.timerFire])
      Ev.audioEnded =
      { (run (enqueue (QueueItem.replyTurn id t) (connect initCtrl))
          [Ev.ttsTurnDone (TurnTtsOutcome.resolved (some { base64 := b64c, provider := pc })
            (some { base64 := b64b, provider := pb })), Ev.audioEnded, Ev.timerFire]) with
        amplitude := 0
        rafActive := false
        timer := some (.revokeFinishC (mkBlobUrl b64b) id, POST_AUDIO_DELAY_MS) } :=
    audioEndedEv_playback (run (enqueue (QueueItem.replyTurn id t) (connect initCtrl))
      [Ev.ttsTurnDone (TurnTtsOutcome.resolved (some { base64 := b64c, provider := pc })
        (some { base64 := b64b, provider := pb })), Ev.audioEnded, Ev.timerFire])
      (mkBlobUrl b64b) id (volumeForProvider (some pb)) rfl rfl
  rw [hA, hB]
  exact ⟨⟨rfl, rfl⟩, ⟨rfl, rfl⟩, ⟨rfl, rfl⟩, ⟨rfl, rfl⟩, ⟨rfl, rfl⟩, ⟨rfl, rfl⟩, ⟨rfl, rfl⟩⟩

set_option maxHeartbeats 2000000 in
/-- C7: a reply-turn item with both chat and bot TTS available passes
through `turnPhase` chat → response → idle in that order — the phase
observed after every event of the completed run is listed, so no phase is
skipped or reordered — and when chat TTS is unavailable the phase moves
directly from chat to response on TTS resolution. -/
theorem reply_turn_phase_order (id b64c pc b64b pb : String) (t : Turn) :
    ((enqueue (QueueItem.replyTurn id t) (connect initCtrl)).snapshot.turnPhase
        = TurnPhase.chat ∧
     (run (enqueue (QueueItem.replyTurn id t) (connect initCtrl))
        [Ev.ttsTurnDone (TurnTtsOutcome.resolved (some { base64 := b64c, provider := pc })
          (some { base64 := b64b, provider := pb }))]).snapshot.turnPhase
        = TurnPhase.chat ∧
     (run (enqueue (QueueItem.replyTurn id t) (connect initCtrl))
        [Ev.ttsTurnDone (TurnTtsOutcome.resolved (some { base64 := b64c, provider := pc })
          (some { base64 := b64b, provider := pb })), Ev.audioEnded]).snapshot.turnPhase
        = TurnPhase.chat ∧
     (run (enqueue (QueueItem.replyTurn id t) (connect initCtrl))
        [Ev.ttsTurnDone (TurnTtsOutcome.resolved (some { base64 := b64c, provider := pc })
          (some { base64 := b64b, provider := pb })), Ev.audioEnded,
         Ev.timerFire]).snapshot.turnPhase = TurnPhase.response ∧
     (step (run (enqueue (QueueItem.replyTurn id t) (connect initCtrl))
        [Ev.ttsTurnDone (TurnTtsOutcome.resolved (some { base64 := b64c, provider := pc })
          (some { base64 := b64b, provider := pb })), Ev.audioEnded, Ev.timerFire])
        Ev.audioEnded).snapshot.turnPhase = TurnPhase.response ∧
     (step (step (run (enqueue (QueueItem.replyTurn id t) (connect initCtrl))
        [Ev.ttsTurnDone (TurnTtsOutcome.resolved (some { base64 := b64c, provider := pc })
          (some { base64 := b64b, provider := pb })), Ev.audioEnded, Ev.timerFire])
        Ev.audioEnded) Ev.timerFire).snapshot.turnPhase = TurnPhase.idle ∧
     (step (step (run (enqueue (QueueItem.replyTurn id t) (connect initCtrl))
        [Ev.ttsTurnDone (TurnTtsOutcome.resolved (some { base64 := b64c, provider := pc })
          (some { base64 := b64b, provider := pb })), Ev.audioEnded, Ev.timerFire])
        Ev.audioEnded) Ev.timerFire).emitted = [("talk:done", id)]) ∧
    (run (enqueue (QueueItem.replyTurn id t) (connect initCtrl))
        [Ev.ttsTurnDone (TurnTtsOutcome.resolved none
          (some { base64 := b64b, provider := pb }))]).snapshot.turnPhase
      = TurnPhase.response := by
  have hB : step (run (enqueue (QueueItem.replyTurn id t) (connect initCtrl))
      [Ev.ttsTurnDone (TurnTtsOutcome.resolved (some { base64 := b64c, provider := pc })
        (some { base64 := b64b, provider := pb })), Ev.audioEnded, Ev.timerFire])
      Ev.audioEnded =
      { (run (enqueue (QueueItem.replyTurn id t) (connect initCtrl))
          [Ev.ttsTurnDone (TurnTtsOutcome.resolved (some { base64 := b64c, provider := pc })
            (some { base64 := b64b, provider := pb })), Ev.audioEnded, Ev.timerFire]) with
        amplitude := 0
        rafActive := false
        timer := some (.revokeFinishC (mkBlobUrl b64b) id, POST_AUDIO_DELAY_MS) } :=
    audioEndedEv_playback (run (enqueue (QueueItem.replyTurn id t) (connect initCtrl))
      [Ev.ttsTurnDone (TurnTtsOutcome.resolved (some { base64 := b64c, provider := pc })
        (some { base64 := b64b, provider := pb })), Ev.audioEnded, Ev.timerFire])
      (mkBlobUrl b64b) id (volumeForProvider (some pb)) rfl rfl
  rw [hB]
  exact ⟨⟨rfl, rfl, rfl, rfl, rfl, rfl, rfl⟩, rfl⟩

/-- C9: the playback volume policy — 0.7 for the provider name "tiktok",
0.8 for every other provider name and when no provider is given — and the
audio element created for a resolved TTS result carries exactly that
volume. -/
theorem playback_volume_policy (id text b64 p : String) :
    volumeForProvider (some "tiktok") = 7 / 10 ∧
    volumeForProvider none = 8 / 10 ∧
    (p ≠ "tiktok" → volumeForProvider (some p) = 8 / 10) ∧
    (step (enqueue (QueueItem.talk id text) (connect initCtrl))
        (Ev.ttsTalkDone (TtsOutcome.resolved
          (some { base64 := b64, provider := p })))).createdAudios
      = [{ url := mkBlobUrl b64, volume := volumeForProvider (some p),
           handlers := AudioHandlers.playback (mkBlobUrl b64) id }] := by
  refine ⟨rfl, rfl, ?_, rfl⟩
  intro h
  show (if p = "" then DEFAULT_VOLUME
        else ((if p = "tiktok" then some TIKTOK_VOLUME else none).getD DEFAULT_VOLUME))
      = 8 / 10
  by_cases hp : p = ""
  · rw [if_pos hp]
    rfl
  · rw [if_neg hp, if_neg h]
    rfl

/-- Witness for C9 at concrete provider names. -/
theorem playback_volume_policy_witness :
    volumeForProvider (some "openai") = 8 / 10 ∧
    volumeForProvider (some "tiktok") = 7 / 10 := by
  obtain ⟨ht, _, ho, _⟩ := playback_volume_policy "t1" "hi" "AAAA" "openai"
  exact ⟨ho (by decide), ht⟩

set_option maxHeartbeats 2000000 in
/-- C10: items enqueued while `connect()` was never called (no transport
client) are still processed to completion; the finish step silently emits no
acknowledgment, and the queue still advances to the next item after the gap
timer fires. -/
theorem no_client_processing (id text id2 text2 : String) :
    (run (enqueueAll [QueueItem.talk id text, QueueItem.talk id2 text2] initCtrl)
        [Ev.ttsTalkDone (TtsOutcome.resolved none), Ev.timerFire]).client = false ∧
    (run (enqueueAll [QueueItem.talk id text, QueueItem.talk id2 text2] initCtrl)
        [Ev.ttsTalkDone (TtsOutcome.resolved none), Ev.timerFire]).emitted = [] ∧
    (run (enqueueAll [QueueItem.talk id text, QueueItem.talk id2 text2] initCtrl)
        [Ev.ttsTalkDone (TtsOutcome.resolved none), Ev.timerFire]).snapshot.currentMessage
      = none ∧
    (run (enqueueAll [QueueItem.talk id text, QueueItem.talk id2 text2] initCtrl)
        [Ev.ttsTalkDone (TtsOutcome.resolved none), Ev.timerFire]).queue
      = [QueueItem.talk id2 text2] ∧
    (run (enqueueAll [QueueItem.talk id text, QueueItem.talk id2 text2] initCtrl)
        [Ev.ttsTalkDone (TtsOutcome.resolved none), Ev.timerFire]).timer
      = some (TimerCont.processNextC, BUBBLE_GAP_MS) ∧
    (step (run (enqueueAll [QueueItem.talk id text, QueueItem.talk id2 text2] initCtrl)
        [Ev.ttsTalkDone (TtsOutcome.resolved none), Ev.timerFire])
        Ev.timerFire).snapshot.currentMessage = some { text := text2 } ∧
    (step (run (enqueueAll [QueueItem.talk id text, QueueItem.talk id2 text2] initCtrl)
        [Ev.ttsTalkDone (TtsOutcome.resolved none), Ev.timerFire])
        Ev.timerFire).snapshot.queueLength = 0 ∧
    (step (run (enqueueAll [QueueItem.talk id text, QueueItem.talk id2 text2] initCtrl)
        [Ev.ttsTalkDone (TtsOutcome.resolved none), Ev.timerFire])
        Ev.timerFire).pendingTts = some (PendingTts.talkP id2 text2) :=
  ⟨rfl, rfl, rfl, rfl, rfl, rfl, rfl, rfl⟩

/-- Witness for C8 at concrete inputs: unchanged values keep the identical
state, changed values and enqueue bump the snapshot version. -/
theorem snapshot_identity_stability_witness :
    setStatus OverlayStatus.sleep initCtrl = initCtrl ∧
    (setStatus OverlayStatus.vibing initCtrl).snapVer = initCtrl.snapVer + 1 ∧
    setShowAll false initCtrl = initCtrl ∧
    (setShowAll true initCtrl).snapVer = initCtrl.snapVer + 1 ∧
    initCtrl.snapVer < (enqueue (QueueItem.talk "a" "x") initCtrl).snapVer := by
  obtain ⟨_, h1, _, h3, _, h5⟩ := snapshot_identity_stability initCtrl
    OverlayStatus.sleep false (QueueItem.talk "a" "x")
  obtain ⟨_, _, h2, _, h4, _⟩ := snapshot_identity_stability initCtrl
    OverlayStatus.vibing true (QueueItem.talk "a" "x")
  exact ⟨h1 rfl, h2 (by decide), h3 rfl, h4 (by decide), h5 rfl rfl⟩

end CrawdOverlay
